import Mathlib

/-!
Shallow embedding of `src/code_standardizer.py` and verification of its
specification claims.  Text handled character-wise is modelled as `List Char`;
subprocess invocation, the filesystem and the hosted model endpoint are
modelled as explicit oracles/state, with Python exceptions as `Except`.
-/

set_option maxHeartbeats 1000000
set_option maxRecDepth 16384

namespace CodeStandardizer

/-- The backquote character, written by code point to keep the development
free of literal backquotes. -/
def btick : Char := Char.ofNat 96

/-- A markdown fence delimiter, the three-character string of backquotes. -/
def fence : List Char := [btick, btick, btick]

/-- The Python-tagged opening fence, the replace target on line 104/118. -/
def fencePython : List Char := fence ++ "python".data

/-- The r-tagged opening fence, the replace target on line 135. -/
def fenceR : List Char := fence ++ "r".data

/-- Predicate `isPre n h` models Python `h.startswith(n)` on character lists. -/
def isPre : List Char → List Char → Bool
  | [], _ => true
  | _ :: _, [] => false
  | a :: xs, b :: ys => if a = b then isPre xs ys else false

/-- Predicate `isSubstring n h` models the Python containment test `n in h`. -/
def isSubstring (needle : List Char) : List Char → Bool
  | [] => needle.isEmpty
  | c :: rest => isPre needle (c :: rest) || isSubstring needle rest

/-- Characters Python's `str.strip()` removes: the `str.isspace()` set
(ASCII whitespace, the separator controls, NEL, NBSP and the Unicode
space/line/paragraph separators). -/
def isPySpace (c : Char) : Bool :=
  c.toNat = 0x09 || c.toNat = 0x0A || c.toNat = 0x0B || c.toNat = 0x0C ||
  c.toNat = 0x0D || c.toNat = 0x1C || c.toNat = 0x1D || c.toNat = 0x1E ||
  c.toNat = 0x1F || c.toNat = 0x20 || c.toNat = 0x85 || c.toNat = 0xA0 ||
  c.toNat = 0x1680 || (0x2000 ≤ c.toNat && c.toNat ≤ 0x200A) ||
  c.toNat = 0x2028 || c.toNat = 0x2029 || c.toNat = 0x202F ||
  c.toNat = 0x205F || c.toNat = 0x3000

/-- Python `str.strip()`: drop leading and trailing whitespace. -/
def pyStrip (s : List Char) : List Char :=
  ((s.dropWhile isPySpace).reverse.dropWhile isPySpace).reverse

/-- Line-boundary characters recognised by Python `str.splitlines()`
(LF, CR, VT, FF, FS, GS, RS, NEL, LS, PS; CRLF is treated as one break). -/
def isLineBoundary (c : Char) : Bool :=
  c.toNat = 0x0A || c.toNat = 0x0D || c.toNat = 0x0B || c.toNat = 0x0C ||
  c.toNat = 0x1C || c.toNat = 0x1D || c.toNat = 0x1E || c.toNat = 0x85 ||
  c.toNat = 0x2028 || c.toNat = 0x2029

/-- Worker for `splitlines`: `acc` holds the current line reversed.  A CR
immediately followed by LF is one line break. -/
def splitlinesGo : List Char → List Char → List (List Char)
  | acc, [] => if acc.isEmpty then [] else [acc.reverse]
  | acc, [c] =>
    if c.toNat = 0x0D then [acc.reverse]
    else if isLineBoundary c then [acc.reverse]
    else [(c :: acc).reverse]
  | acc, c :: d :: rest =>
    if c.toNat = 0x0D then
      if d.toNat = 0x0A then acc.reverse :: splitlinesGo [] rest
      else acc.reverse :: splitlinesGo [] (d :: rest)
    else if isLineBoundary c then acc.reverse :: splitlinesGo [] (d :: rest)
    else splitlinesGo (c :: acc) (d :: rest)

/-- Python `str.splitlines()` on character lists. -/
def splitlines (s : List Char) : List (List Char) := splitlinesGo [] s

/-- Python `str.replace(pat, rep)` (all non-overlapping occurrences, left to
right).  Only invoked with non-empty patterns in this program; the guard
makes the empty-pattern case the identity. -/
def pyReplace (pat rep : List Char) (s : List Char) : List Char :=
  match s with
  | [] => []
  | c :: rest =>
    if h : pat ≠ [] ∧ isPre pat (c :: rest) = true then
      rep ++ pyReplace pat rep ((c :: rest).drop pat.length)
    else
      c :: pyReplace pat rep rest
termination_by s.length
decreasing_by
  · simp only [List.length_drop, List.length_cons]
    have hp : 0 < pat.length := List.length_pos.mpr h.1
    omega
  · simp only [List.length_cons]
    omega

/-- Length of the run of copies of `c` at the head of a list. -/
def leadRun (c : Char) : List Char → Nat
  | [] => 0
  | d :: rest => if d = c then leadRun c rest + 1 else 0

/-! ## Model of the effectful environment -/

/-- Result of a completed subprocess, as captured by `subprocess.run` with
`capture_output=True, text=True`. -/
structure ProcResult where
  returncode : Int
  stdout : List Char
  stderr : List Char
  deriving DecidableEq, Repr

/-- Outcome the operating system gives one command invocation: either the
process ran to completion, or the executable could not be found
(Python raises `FileNotFoundError`). -/
inductive RunOutcome where
  | completed (r : ProcResult)
  | notFound
  deriving DecidableEq, Repr

/-- The Python exceptions this program can raise or catch. -/
inductive PyExn where
  | fileNotFoundError (detail : String)
  | calledProcessError (cmd : List String) (code : Int)
  deriving DecidableEq, Repr

/-- Observable events: subprocess invocations, Streamlit UI output, and
file writes performed by the program itself. -/
inductive Event where
  | ran (cmd : List String)
  | stWrite (msg : String)
  | stError (msg : List Char)
  | stSubheader (msg : String)
  | stText (msg : List Char)
  | stTextArea (label : String) (content : List Char)
  | fileWrite (path : String) (content : List Char)
  | downloadButton (label : String) (data : List Char) (fileName : String)
  deriving DecidableEq, Repr

/-- The local filesystem: contents by path, `none` when the file is absent. -/
def FS : Type := String → Option (List Char)

/-- The external world for subprocesses: what outcome each command produces
and how running it transforms the filesystem (external tools such as
`black` mutate files). -/
structure Env where
  run : List String → RunOutcome
  fsEffect : List String → FS → FS

/-- Outcome of one attempt at the Gemini call (construct the model, generate,
resolve, read `.text`): either text, or some raised exception's message. -/
inductive ModelOutcome where
  | ok (text : List Char)
  | raises (msg : List Char)

/-- The hosted model endpoint, as a function from prompt to outcome. -/
def Oracle : Type := List Char → ModelOutcome

/-- Model of `sys.executable`, the Python interpreter running the app. -/
def sysExecutable : String := "python"

/-- First element of an argv, used as the detail of `FileNotFoundError`. -/
def cmdName (cmd : List String) : String := cmd.headD ""

/-- Python `subprocess.run(cmd, check)`; `capture_output` only determines
whether `stdout` is meaningful to the caller, which the model keeps always.
With `check=True` a non-zero exit raises `CalledProcessError`; an absent
executable always raises `FileNotFoundError`. -/
def subprocessRun (env : Env) (fs : FS) (cmd : List String) (check : Bool) :
    Except PyExn ProcResult × FS × List Event :=
  match env.run cmd with
  | .notFound => (.error (.fileNotFoundError (cmdName cmd)), fs, [.ran cmd])
  | .completed r =>
    let fs2 := env.fsEffect cmd fs
    if check ∧ r.returncode ≠ 0 then
      (.error (.calledProcessError cmd r.returncode), fs2, [.ran cmd])
    else
      (.ok r, fs2, [.ran cmd])

/-- Model of `open(path, 'r')` followed by `.read()`. -/
def pyOpenRead (fs : FS) (path : String) : Except PyExn (List Char) :=
  match fs path with
  | some content => .ok content
  | none => .error (.fileNotFoundError path)

/-- Model of `open(path, mode with write)` followed by writing `content`. -/
def fileWriteFS (fs : FS) (path : String) (content : List Char) : FS :=
  fun p => if p = path then some content else fs p

/-! ## Embedded program (src/code_standardizer.py) -/

def pylintVersionCmd : List String := ["pylint", "--version"]

def pipInstallPylintCmd : List String := [sysExecutable, "-m", "pip", "install", "pylint"]

def blackVersionCmd : List String := ["black", "--version"]

def pipInstallBlackCmd : List String := [sysExecutable, "-m", "pip", "install", "black"]

/-- Constant `rscript_path = "Rscript"` (lines 32 and 69). -/
def rscript_path : String := "Rscript"

def lintrCheckCmd : List String := [rscript_path, "-e", "library(lintr)"]

def lintrInstallCmd : List String := [rscript_path, "-e", "install.packages(\"lintr\")"]

/-- Model of `ensure_pylint_installed` (lines 13-18): try `pylint --version` with
`check=True`; only `FileNotFoundError` is caught, and then a message is
shown and `pip install pylint` is run unchecked. -/
def ensure_pylint_installed (env : Env) (fs : FS) :
    Except PyExn Unit × FS × List Event :=
  match subprocessRun env fs pylintVersionCmd true with
  | (.ok _, fs1, ev1) => (.ok (), fs1, ev1)
  | (.error (.fileNotFoundError _), fs1, ev1) =>
    let w := Event.stWrite "Pylint is not installed. Installing it now..."
    match subprocessRun env fs1 pipInstallPylintCmd false with
    | (.ok _, fs2, ev2) => (.ok (), fs2, ev1 ++ [w] ++ ev2)
    | (.error e, fs2, ev2) => (.error e, fs2, ev1 ++ [w] ++ ev2)
  | (.error e, fs1, ev1) => (.error e, fs1, ev1)

/-- Model of `ensure_black_installed` (lines 22-27), same shape for `black`. -/
def ensure_black_installed (env : Env) (fs : FS) :
    Except PyExn Unit × FS × List Event :=
  match subprocessRun env fs blackVersionCmd true with
  | (.ok _, fs1, ev1) => (.ok (), fs1, ev1)
  | (.error (.fileNotFoundError _), fs1, ev1) =>
    let w := Event.stWrite "Black is not installed. Installing it now..."
    match subprocessRun env fs1 pipInstallBlackCmd false with
    | (.ok _, fs2, ev2) => (.ok (), fs2, ev1 ++ [w] ++ ev2)
    | (.error e, fs2, ev2) => (.error e, fs2, ev1 ++ [w] ++ ev2)
  | (.error e, fs1, ev1) => (.error e, fs1, ev1)

/-- Model of `ensure_lintr_installed` (lines 31-37): try `Rscript -e 'library(lintr)'`
with `check=True`; only `CalledProcessError` is caught (a missing `Rscript`
executable, i.e. `FileNotFoundError`, propagates), and then
`install.packages("lintr")` is run unchecked. -/
def ensure_lintr_installed (env : Env) (fs : FS) :
    Except PyExn Unit × FS × List Event :=
  match subprocessRun env fs lintrCheckCmd true with
  | (.ok _, fs1, ev1) => (.ok (), fs1, ev1)
  | (.error (.calledProcessError _ _), fs1, ev1) =>
    let w := Event.stWrite "lintr is not installed in R. Installing it now..."
    match subprocessRun env fs1 lintrInstallCmd false with
    | (.ok _, fs2, ev2) => (.ok (), fs2, ev1 ++ [w] ++ ev2)
    | (.error e, fs2, ev2) => (.error e, fs2, ev1 ++ [w] ++ ev2)
  | (.error e, fs1, ev1) => (.error e, fs1, ev1)

/-- Model of `analyze_code_pylint` (lines 41-46): ensure the tool, run
`pylint file_path` without `check`, return captured stdout. -/
def analyze_code_pylint (env : Env) (fs : FS) (file_path : String) :
    Except PyExn (List Char) × FS × List Event :=
  match ensure_pylint_installed env fs with
  | (.error e, fs1, ev1) => (.error e, fs1, ev1)
  | (.ok _, fs1, ev1) =>
    match subprocessRun env fs1 ["pylint", file_path] false with
    | (.ok r, fs2, ev2) => (.ok r.stdout, fs2, ev1 ++ ev2)
    | (.error e, fs2, ev2) => (.error e, fs2, ev1 ++ ev2)

/-- The marker phrase searched for on line 52. -/
def marker : List Char := "Your code has been rated at".data

/-- The fallback returned on line 54. -/
def scoreFallback : List Char := "Pylint score not found.".data

/-- Loop body of `extract_pylint_score`: first line containing the marker is
returned stripped; otherwise the fallback. -/
def extractScoreGo : List (List Char) → List Char
  | [] => scoreFallback
  | line :: rest =>
    if isSubstring marker line then pyStrip line else extractScoreGo rest

/-- Model of `extract_pylint_score` (lines 50-54). -/
def extract_pylint_score (lint_report : List Char) : List Char :=
  extractScoreGo (splitlines lint_report)

/-- Model of `format_code_black` (lines 58-63): ensure the tool, run
`black file_path` (unchecked, output not captured), then read the file
back and return its content. -/
def format_code_black (env : Env) (fs : FS) (file_path : String) :
    Except PyExn (List Char) × FS × List Event :=
  match ensure_black_installed env fs with
  | (.error e, fs1, ev1) => (.error e, fs1, ev1)
  | (.ok _, fs1, ev1) =>
    match subprocessRun env fs1 ["black", file_path] false with
    | (.error e, fs2, ev2) => (.error e, fs2, ev1 ++ ev2)
    | (.ok _, fs2, ev2) =>
      match pyOpenRead fs2 file_path with
      | .ok formatted_code => (.ok formatted_code, fs2, ev1 ++ ev2)
      | .error e => (.error e, fs2, ev1 ++ ev2)

/-- Model of `analyze_code_lintr` (lines 67-74): ensure lintr, run
`Rscript -e 'lintr::lint("<file_path>")'`, return captured stdout. -/
def analyze_code_lintr (env : Env) (fs : FS) (file_path : String) :
    Except PyExn (List Char) × FS × List Event :=
  match ensure_lintr_installed env fs with
  | (.error e, fs1, ev1) => (.error e, fs1, ev1)
  | (.ok _, fs1, ev1) =>
    match subprocessRun env fs1
        [rscript_path, "-e", "lintr::lint(\"" ++ file_path ++ "\")"] false with
    | (.ok r, fs2, ev2) => (.ok r.stdout, fs2, ev1 ++ ev2)
    | (.error e, fs2, ev2) => (.error e, fs2, ev1 ++ ev2)

/-- Model of `call_gemini_llm` (lines 78-86): on any exception from the model call the
error is shown with `st.error` and `""` is returned; otherwise the response
text is returned. -/
def call_gemini_llm (oracle : Oracle) (prompt : List Char) :
    List Char × List Event :=
  match oracle prompt with
  | .ok t => (t, [])
  | .raises e => ([], [.stError ("Error calling Gemini LLM: ".data ++ e)])

/-- The f-string template of `standardize_code_pylint` (lines 91-102). -/
def pylintPrompt (code lint_report : List Char) : List Char :=
  "\n    Given the following Python code and the Pylint report, improve the code to address all issues and achieve a Pylint score greater than 8.\n    Include only the necessary docstrings and avoid redundant explanations.\n\n    Original Code:\n    ".data
  ++ code
  ++ "\n\n    Pylint Report:\n    ".data
  ++ lint_report
  ++ "\n\n    Improved Code:\n    ".data

/-- Model of `standardize_code_pylint` (lines 90-104): build the prompt, call the
model, strip the python-tagged fence and then every bare fence. -/
def standardize_code_pylint (oracle : Oracle) (code lint_report : List Char) :
    List Char × List Event :=
  let res := call_gemini_llm oracle (pylintPrompt code lint_report)
  (pyReplace fence [' '] (pyReplace fencePython [' '] res.1), res.2)

/-- The f-string template of `standardize_code_black` (lines 109-116). -/
def blackPrompt (code : List Char) : List Char :=
  "\n    Given the following Python code, format it according to the Black code style.\n\n    Original Code:\n    ".data
  ++ code
  ++ "\n\n    Improved Code:\n    ".data

/-- Model of `standardize_code_black` (lines 108-118). -/
def standardize_code_black (oracle : Oracle) (code : List Char) :
    List Char × List Event :=
  let res := call_gemini_llm oracle (blackPrompt code)
  (pyReplace fence [' '] (pyReplace fencePython [' '] res.1), res.2)

/-- The f-string template of `standardize_code_lintr` (lines 123-133).
Note: the template never interpolates `lint_report`; between the code and
"Improved Code:" the literal is blank line, a line of two spaces, blank
line (lines 129-131 of the source). -/
def lintrPrompt (code lint_report : List Char) : List Char :=
  "\n    Given the following R code and the lintr report, improve the code to address all issues according to R\x27s best practices.\n    Include only the necessary comments and avoid redundant explanations.\n\n    Original Code:\n    ".data
  ++ code
  ++ "\n\n  \n\n    Improved Code:\n    ".data

/-- Model of `standardize_code_lintr` (lines 122-135): build the prompt (which drops
the report), call the model, strip the r-tagged fence and then every bare
fence. -/
def standardize_code_lintr (oracle : Oracle) (code lint_report : List Char) :
    List Char × List Event :=
  let res := call_gemini_llm oracle (lintrPrompt code lint_report)
  (pyReplace fence [' '] (pyReplace fenceR [' '] res.1), res.2)

/-- The f-string template of `summarize_code` (lines 140-147). -/
def summaryPrompt (code : List Char) (language : String) : List Char :=
  "\n    Summarize the following ".data ++ language.data
  ++ " code. Provide a concise explanation of what the code does.\n\n    Code:\n    ".data
  ++ code
  ++ "\n\n    Summary:\n    ".data

/-- Model of `summarize_code` (lines 139-149). -/
def summarize_code (oracle : Oracle) (code : List Char) (language : String) :
    List Char × List Event :=
  call_gemini_llm oracle (summaryPrompt code language)

/-! ## Orchestrator: the Standardize path of `main` (lines 203-292) -/

/-- The standardizer dispatch of `main` (lines 225-285): nested
`if language_choice / standardizer_choice` branches.  A (language,
standardizer) pair no branch handles does nothing.  Returns the final
exception status, filesystem and emitted events of the branch. -/
def standardizeBranch (env : Env) (oracle : Oracle)
    (language_choice standardizer_choice : String)
    (file_path standardized_file_path : String) (original_code : List Char)
    (fs : FS) : Except PyExn Unit × FS × List Event :=
  if language_choice = "Python" then
    if standardizer_choice = "Pylint" then
      match analyze_code_pylint env fs file_path with
      | (.error e, fs2, ev2) => (.error e, fs2, ev2)
      | (.ok lint_report, fs2, ev2) =>
        let evR := ev2 ++ [.stSubheader "Pylint Report", .stText lint_report]
        let std := standardize_code_pylint oracle original_code lint_report
        let fs3 := fileWriteFS fs2 standardized_file_path std.1
        let evW := evR ++ std.2 ++
          [.fileWrite standardized_file_path std.1,
           .stSubheader "Standardized Code (Pylint)",
           .stTextArea "Standardized Code" std.1]
        match analyze_code_pylint env fs3 standardized_file_path with
        | (.error e, fs4, ev4) => (.error e, fs4, evW ++ ev4)
        | (.ok new_lint_report, fs4, ev4) =>
          let new_pylint_score := extract_pylint_score new_lint_report
          (.ok (), fs4, evW ++ ev4 ++
            [.stSubheader "New Pylint Report", .stText new_lint_report,
             .stSubheader "New Pylint Score", .stText new_pylint_score])
    else if standardizer_choice = "Black" then
      match format_code_black env fs file_path with
      | (.error e, fs2, ev2) => (.error e, fs2, ev2)
      | (.ok standardized_code, fs2, ev2) =>
        let fs3 := fileWriteFS fs2 standardized_file_path standardized_code
        (.ok (), fs3, ev2 ++
          [.fileWrite standardized_file_path standardized_code,
           .stSubheader "Standardized Code (Black)",
           .stTextArea "Standardized Code" standardized_code])
    else (.ok (), fs, [])
  else if language_choice = "R" then
    if standardizer_choice = "lintr" then
      match analyze_code_lintr env fs file_path with
      | (.error e, fs2, ev2) => (.error e, fs2, ev2)
      | (.ok lint_report, fs2, ev2) =>
        let evR := ev2 ++ [.stSubheader "lintr Report", .stText lint_report]
        let std := standardize_code_lintr oracle original_code lint_report
        let fs3 := fileWriteFS fs2 standardized_file_path std.1
        (.ok (), fs3, evR ++ std.2 ++
          [.fileWrite standardized_file_path std.1,
           .stSubheader "Standardized Code (lintr)",
           .stTextArea "Standardized Code" std.1])
    else (.ok (), fs, [])
  else (.ok (), fs, [])

/-- The Standardize path of `main` with an uploaded file (lines 207-292):
save the upload under its own name, read it back, summarize it, run the
selected branch, then unconditionally open the `standardized_`-prefixed
path for the download button.  (The Translate path does no file I/O and is
not modelled.) -/
def mainStandardize (env : Env) (oracle : Oracle)
    (language_choice standardizer_choice : String)
    (uploadedName : String) (uploadedContent : List Char) (fs : FS) :
    Except PyExn Unit × FS × List Event :=
  let file_path := uploadedName
  let fs1 := fileWriteFS fs file_path uploadedContent
  let ev0 := [Event.fileWrite file_path uploadedContent]
  match pyOpenRead fs1 file_path with
  | .error e => (.error e, fs1, ev0)
  | .ok original_code =>
    let sm := summarize_code oracle original_code language_choice
    let ev1 := ev0 ++ sm.2 ++
      [.stSubheader "Code Summary", .stTextArea "Summary Output" sm.1]
    let standardized_file_path := "standardized_" ++ file_path
    match standardizeBranch env oracle language_choice standardizer_choice
        file_path standardized_file_path original_code fs1 with
    | (.error e, fs2, evB) => (.error e, fs2, ev1 ++ evB)
    | (.ok _, fs2, evB) =>
      match pyOpenRead fs2 standardized_file_path with
      | .error e => (.error e, fs2, ev1 ++ evB)
      | .ok d => (.ok (), fs2, ev1 ++ evB ++
          [.downloadButton "Download Standardized Code" d standardized_file_path])

/-! ## Event-trace predicates -/

/-- Is this event a file write performed by the program? -/
def isFileWrite : Event → Bool
  | .fileWrite _ _ => true
  | .ran _ => false
  | .stWrite _ => false
  | .stError _ => false
  | .stSubheader _ => false
  | .stText _ => false
  | .stTextArea _ _ => false
  | .downloadButton _ _ _ => false

/-- Whether a trace contains any program file write. -/
def hasFileWrite (evs : List Event) : Bool := evs.any isFileWrite

/-- Event is either not a file write, or a file write to `path`. -/
def writeOk (path : String) : Event → Bool
  | .fileWrite p _ => decide (p = path)
  | .ran _ => true
  | .stWrite _ => true
  | .stError _ => true
  | .stSubheader _ => true
  | .stText _ => true
  | .stTextArea _ _ => true
  | .downloadButton _ _ _ => true

/-- Every file write in the trace targets `path`. -/
def writesOnlyTo (path : String) (evs : List Event) : Bool :=
  evs.all (writeOk path)

/-- Number of invocations of `cmd` recorded in the trace. -/
def countRuns (cmd : List String) : List Event → Nat
  | [] => 0
  | Event.ran c :: rest => (if c = cmd then 1 else 0) + countRuns cmd rest
  | _ :: rest => countRuns cmd rest

/-! ## Helper lemmas for fence stripping -/

theorem isPre_pair_iff : ∀ z : List Char, isPre [btick, btick] z = true ↔ 2 ≤ leadRun btick z := by
  intro z
  match z with
  | [] => simp [isPre, leadRun]
  | [a] =>
    by_cases h1 : a = btick
    · subst h1; simp [isPre, leadRun]
    · simp [isPre, leadRun, h1, Ne.symm h1]
  | a :: b :: r =>
    by_cases h1 : a = btick
    · subst h1
      by_cases h2 : b = btick
      · subst h2; simp [isPre, leadRun]
      · simp [isPre, leadRun, h2, Ne.symm h2]
    · simp [isPre, leadRun, h1, Ne.symm h1]

theorem leadRun_pyReplace_le : ∀ (n : Nat) (s : List Char), s.length ≤ n →
    leadRun btick (pyReplace fence [' '] s) ≤ leadRun btick s := by
  intro n
  induction n with
  | zero =>
    intro s hs
    have hnil : s = [] := List.eq_nil_of_length_eq_zero (Nat.le_zero.mp hs)
    subst hnil
    rw [pyReplace]
  | succ n ih =>
    intro s hs
    match s with
    | [] => rw [pyReplace]
    | c :: rest =>
      rw [pyReplace.eq_def]
      dsimp only
      split
      · rename_i h
        have : leadRun btick ([' '] ++ pyReplace fence [' '] ((c :: rest).drop fence.length)) = 0 := by
          simp [leadRun, show ¬(' ' = btick) from by decide]
        omega
      · rename_i h
        by_cases hc : c = btick
        · subst hc
          have h1 : rest.length ≤ n := by
            simp only [List.length_cons] at hs; omega
          simp [leadRun]
          have := ih rest h1
          omega
        · simp [leadRun, hc]

theorem no_fence_pyReplace : ∀ (n : Nat) (s : List Char), s.length ≤ n →
    isSubstring fence (pyReplace fence [' '] s) = false := by
  intro n
  induction n with
  | zero =>
    intro s hs
    have hnil : s = [] := List.eq_nil_of_length_eq_zero (Nat.le_zero.mp hs)
    subst hnil
    rw [pyReplace]; decide
  | succ n ih =>
    intro s hs
    match s with
    | [] => rw [pyReplace]; decide
    | c :: rest =>
      rw [pyReplace.eq_def]
      dsimp only
      split
      · rename_i h
        have hlen : ((c :: rest).drop fence.length).length ≤ n := by
          have hf : fence.length = 3 := rfl
          simp only [List.length_drop, List.length_cons, hf]
          simp only [List.length_cons] at hs
          omega
        have hih := ih _ hlen
        simp only [List.append_eq, List.cons_append, List.nil_append, isSubstring]
        rw [hih]
        have hp : isPre fence (' ' :: pyReplace fence [' '] ((c :: rest).drop fence.length)) = false := by
          show isPre (btick :: [btick, btick]) _ = false
          simp [isPre, show btick ≠ ' ' from by decide]
        rw [hp]
        rfl
      · rename_i h
        have h1 : rest.length ≤ n := by
          simp only [List.length_cons] at hs; omega
        have hih := ih rest h1
        simp only [isSubstring]
        rw [hih]
        by_cases hc : c = btick
        · subst hc
          have hnp : isPre fence (btick :: rest) = false := by
            by_contra hx
            exact h ⟨by decide, by simpa using hx⟩
          have hnp2 : isPre [btick, btick] rest = false := by
            have he : isPre fence (btick :: rest) = isPre [btick, btick] rest := by
              show isPre (btick :: [btick, btick]) (btick :: rest) = _
              simp [isPre]
            rw [he] at hnp; exact hnp
          have hrest : leadRun btick rest ≤ 1 := by
            by_contra hx
            have ht : isPre [btick, btick] rest = true :=
              (isPre_pair_iff rest).mpr (by omega)
            rw [ht] at hnp2; cases hnp2
          have hle := leadRun_pyReplace_le rest.length rest le_rfl
          have hy : isPre [btick, btick] (pyReplace fence [' '] rest) = false := by
            rcases hb : isPre [btick, btick] (pyReplace fence [' '] rest)
            · rfl
            · have h2 := (isPre_pair_iff _).mp hb; omega
          have hfp : isPre fence (btick :: pyReplace fence [' '] rest) = false := by
            show isPre (btick :: [btick, btick]) _ = false
            simp [isPre, hy]
          rw [hfp]
          rfl
        · have hfp : isPre fence (c :: pyReplace fence [' '] rest) = false := by
            show isPre (btick :: [btick, btick]) _ = false
            simp [isPre, Ne.symm hc]
          rw [hfp]
          rfl

/-- Every output of the bare-fence replace contains no fence. -/
theorem no_fence (s : List Char) :
    isSubstring fence (pyReplace fence [' '] s) = false :=
  no_fence_pyReplace s.length s le_rfl

/-! ## Claims C1, C2: the score extractor -/

/-- Input refuting C1: a one-line report whose marker line ends in a space. -/
def c1Report : List Char := "Your code has been rated at 9.50/10 ".data

/-- Claim C1, counterexample:  The claim says the extractor returns the first
marker line unmodified.  On a report whose single marker line carries a
trailing space, the code returns `line.strip()`, which differs from the
line itself. -/
theorem C1_counterexample :
    splitlines c1Report = [c1Report] ∧
    isSubstring marker c1Report = true ∧
    extract_pylint_score c1Report ≠ c1Report :=
  ⟨by decide, by decide, by decide⟩

/-- Claim C1, amended:  For every report containing a line with the marker
phrase, the extractor returns the first such line with leading and trailing
whitespace stripped (Python applies `.strip()` before returning). -/
theorem C1_extract_returns_stripped_first_match (lint_report line : List Char)
    (h : (splitlines lint_report).find? (isSubstring marker) = some line) :
    extract_pylint_score lint_report = pyStrip line := by
  unfold extract_pylint_score
  have main : ∀ (ls : List (List Char)) (l : List Char),
      ls.find? (isSubstring marker) = some l → extractScoreGo ls = pyStrip l := by
    intro ls
    induction ls with
    | nil => intro l hl; simp at hl
    | cons hd tl ih =>
      intro l hl
      by_cases hm : isSubstring marker hd = true
      · rw [List.find?_cons_of_pos _ hm] at hl
        cases hl
        simp [extractScoreGo, hm]
      · rw [List.find?_cons_of_neg _ (by simpa using hm)] at hl
        rw [extractScoreGo]
        rw [if_neg (by simpa using hm)]
        exact ih l hl
  exact main _ _ h

/-- A concrete two-line report whose second line holds the marker. -/
def c1wReport : List Char := "abc\nYour code has been rated at 9.00/10\n".data

/-- The marker line of `c1wReport`. -/
def c1wLine : List Char := "Your code has been rated at 9.00/10".data

/-- Witness for the amended C1 theorem at a concrete report. -/
theorem C1_witness :
    (splitlines c1wReport).find? (isSubstring marker) = some c1wLine ∧
    extract_pylint_score c1wReport = pyStrip c1wLine :=
  ⟨by decide, C1_extract_returns_stripped_first_match c1wReport c1wLine (by decide)⟩

/-- Claim C2:  For every report in which no line contains the marker phrase,
the extractor returns the fixed fallback string "Pylint score not found.". -/
theorem C2_fallback_when_no_marker (lint_report : List Char)
    (h : ∀ line ∈ splitlines lint_report, isSubstring marker line = false) :
    extract_pylint_score lint_report = "Pylint score not found.".data := by
  unfold extract_pylint_score
  have main : ∀ ls : List (List Char),
      (∀ line ∈ ls, isSubstring marker line = false) →
      extractScoreGo ls = scoreFallback := by
    intro ls
    induction ls with
    | nil => intro _; rfl
    | cons hd tl ih =>
      intro hall
      have hhd := hall hd (List.mem_cons_self hd tl)
      rw [extractScoreGo, if_neg (by simp [hhd])]
      exact ih fun l hl => hall l (List.mem_cons_of_mem _ hl)
  exact main _ h

/-- A concrete report with no marker line. -/
def c2Report : List Char :=
  "************* Module m\nm.py:1:0: C0114: Missing module docstring\n".data

/-- Witness for C2 at a concrete marker-free report. -/
theorem C2_witness :
    (∀ line ∈ splitlines c2Report, isSubstring marker line = false) ∧
    extract_pylint_score c2Report = "Pylint score not found.".data :=
  ⟨by decide, C2_fallback_when_no_marker c2Report (by decide)⟩

/-! ## Claim C3: fence stripping -/

/-- Claim C3:  For every model response wrapped in a language-tagged markdown
code fence, the stripped results of `standardize_code_pylint` and
`standardize_code_lintr` contain no fence delimiter substring.  (The final
`.replace` of the bare fence guarantees this for every response.) -/
theorem C3_no_fence_in_standardized :
    (∀ (oracle : Oracle) (code lint_report body : List Char),
      oracle (pylintPrompt code lint_report) = .ok (fencePython ++ body ++ fence) →
      isSubstring fence (standardize_code_pylint oracle code lint_report).1 = false)
    ∧ (∀ (oracle : Oracle) (code lint_report body : List Char),
      oracle (lintrPrompt code lint_report) = .ok (fenceR ++ body ++ fence) →
      isSubstring fence (standardize_code_lintr oracle code lint_report).1 = false) := by
  constructor
  · intro oracle code lint_report body _h
    unfold standardize_code_pylint
    exact no_fence _
  · intro oracle code lint_report body _h
    unfold standardize_code_lintr
    exact no_fence _

/-- Oracle answering every prompt with a python-fenced block. -/
def c3OracleP : Oracle := fun _ => .ok (fencePython ++ "\nprint(1)\n".data ++ fence)

/-- Oracle answering every prompt with an r-fenced block. -/
def c3OracleR : Oracle := fun _ => .ok (fenceR ++ "\nx <- 1\n".data ++ fence)

/-- Witness for C3 at concrete fenced responses. -/
theorem C3_witness :
    c3OracleP (pylintPrompt "c".data "r".data) =
      .ok (fencePython ++ "\nprint(1)\n".data ++ fence) ∧
    isSubstring fence (standardize_code_pylint c3OracleP "c".data "r".data).1 = false ∧
    c3OracleR (lintrPrompt "c".data "r".data) =
      .ok (fenceR ++ "\nx <- 1\n".data ++ fence) ∧
    isSubstring fence (standardize_code_lintr c3OracleR "c".data "r".data).1 = false :=
  ⟨rfl, C3_no_fence_in_standardized.1 c3OracleP _ _ _ rfl, rfl,
   C3_no_fence_in_standardized.2 c3OracleR _ _ _ rfl⟩

/-! ## Claim C4: model-call failure handling -/

/-- Claim C4:  For every prompt, if the model call raises any exception,
`call_gemini_llm` catches it, surfaces it as a user-visible `st.error`, and
returns the empty string; being a total function of the outcome, it never
propagates the exception. -/
theorem C4_model_exception_caught (oracle : Oracle) (prompt msg : List Char)
    (h : oracle prompt = .raises msg) :
    call_gemini_llm oracle prompt =
      ([], [Event.stError ("Error calling Gemini LLM: ".data ++ msg)]) := by
  unfold call_gemini_llm
  rw [h]

/-- Oracle whose call always raises. -/
def c4Oracle : Oracle := fun _ => .raises "429 quota exceeded".data

/-- Witness for C4 at a concrete raising oracle. -/
theorem C4_witness :
    c4Oracle "hello".data = .raises "429 quota exceeded".data ∧
    call_gemini_llm c4Oracle "hello".data =
      ([], [Event.stError ("Error calling Gemini LLM: ".data ++ "429 quota exceeded".data)]) :=
  ⟨rfl, C4_model_exception_caught c4Oracle "hello".data "429 quota exceeded".data rfl⟩

/-! ## Claim C5: analyzer adapters return captured stdout -/

/-- Claim C5:  For every file path and every exit status of the analysis tool,
the analyzer adapters return the tool's captured stdout as the report: the
returncode of the completed analysis run is not inspected, so partial or
error output is returned unchanged. -/
theorem C5_report_is_captured_stdout :
    (∀ (env : Env) (fs : FS) (file_path : String) (r : ProcResult),
      (ensure_pylint_installed env fs).1 = .ok () →
      env.run ["pylint", file_path] = .completed r →
      (analyze_code_pylint env fs file_path).1 = .ok r.stdout)
    ∧ (∀ (env : Env) (fs : FS) (file_path : String) (r : ProcResult),
      (ensure_lintr_installed env fs).1 = .ok () →
      env.run [rscript_path, "-e", "lintr::lint(\"" ++ file_path ++ "\")"] = .completed r →
      (analyze_code_lintr env fs file_path).1 = .ok r.stdout) := by
  constructor
  · intro env fs p r hE hR
    unfold analyze_code_pylint
    rcases h1 : ensure_pylint_installed env fs with ⟨e1, fs1, ev1⟩
    rw [h1] at hE
    obtain rfl : e1 = .ok () := hE
    dsimp only
    unfold subprocessRun
    rw [hR]
    dsimp only
    rw [if_neg (by simp)]
  · intro env fs p r hE hR
    unfold analyze_code_lintr
    rcases h1 : ensure_lintr_installed env fs with ⟨e1, fs1, ev1⟩
    rw [h1] at hE
    obtain rfl : e1 = .ok () := hE
    dsimp only
    unfold subprocessRun
    rw [hR]
    dsimp only
    rw [if_neg (by simp)]

/-- Environment where the tool probes succeed but every analysis command
completes with exit status 28 and nonempty stdout; nothing touches the
filesystem. -/
def c5Env : Env :=
  { run := fun cmd =>
      if cmd = pylintVersionCmd then .completed ⟨0, [], []⟩
      else if cmd = lintrCheckCmd then .completed ⟨0, [], []⟩
      else .completed ⟨28, "E0001: syntax error".data, []⟩,
    fsEffect := fun _ f => f }

/-- The empty filesystem. -/
def fsEmpty : FS := fun _ => none

/-- Witness for C5: with exit status 28 the pylint and lintr adapters still
return the captured stdout. -/
theorem C5_witness :
    (ensure_pylint_installed c5Env fsEmpty).1 = .ok () ∧
    c5Env.run ["pylint", "m.py"] = .completed ⟨28, "E0001: syntax error".data, []⟩ ∧
    (analyze_code_pylint c5Env fsEmpty "m.py").1 = .ok "E0001: syntax error".data ∧
    (ensure_lintr_installed c5Env fsEmpty).1 = .ok () ∧
    (analyze_code_lintr c5Env fsEmpty "m.R").1 = .ok "E0001: syntax error".data :=
  ⟨rfl, by decide,
   C5_report_is_captured_stdout.1 c5Env fsEmpty "m.py" ⟨28, "E0001: syntax error".data, []⟩
     rfl (by decide),
   rfl,
   C5_report_is_captured_stdout.2 c5Env fsEmpty "m.R" ⟨28, "E0001: syntax error".data, []⟩
     rfl (by decide)⟩

/-! ## Claim C6: install-on-missing behaviour of the tool checkers -/

/-- Spec of `ensure_pylint_installed` when the version probe hits a missing
executable and the install command completes. -/
theorem ensure_pylint_notFound_spec (env : Env) (fs : FS) (ri : ProcResult)
    (hV : env.run pylintVersionCmd = .notFound)
    (hI : env.run pipInstallPylintCmd = .completed ri) :
    ensure_pylint_installed env fs =
      (.ok (), env.fsEffect pipInstallPylintCmd fs,
       [.ran pylintVersionCmd,
        .stWrite "Pylint is not installed. Installing it now...",
        .ran pipInstallPylintCmd]) := by
  unfold ensure_pylint_installed subprocessRun
  rw [hV, hI]
  dsimp only
  rw [if_neg (by simp)]
  rfl

/-- Spec of `ensure_black_installed` when the version probe hits a missing
executable and the install command completes. -/
theorem ensure_black_notFound_spec (env : Env) (fs : FS) (ri : ProcResult)
    (hV : env.run blackVersionCmd = .notFound)
    (hI : env.run pipInstallBlackCmd = .completed ri) :
    ensure_black_installed env fs =
      (.ok (), env.fsEffect pipInstallBlackCmd fs,
       [.ran blackVersionCmd,
        .stWrite "Black is not installed. Installing it now...",
        .ran pipInstallBlackCmd]) := by
  unfold ensure_black_installed subprocessRun
  rw [hV, hI]
  dsimp only
  rw [if_neg (by simp)]
  rfl

/-- Spec of `ensure_lintr_installed` when the library probe exits non-zero
(`CalledProcessError` is caught) and the install command completes. -/
theorem ensure_lintr_nonzero_spec (env : Env) (fs : FS) (rc ri : ProcResult)
    (hC : env.run lintrCheckCmd = .completed rc)
    (hrc : rc.returncode ≠ 0)
    (hI : env.run lintrInstallCmd = .completed ri) :
    ensure_lintr_installed env fs =
      (.ok (), env.fsEffect lintrInstallCmd (env.fsEffect lintrCheckCmd fs),
       [.ran lintrCheckCmd,
        .stWrite "lintr is not installed in R. Installing it now...",
        .ran lintrInstallCmd]) := by
  unfold ensure_lintr_installed subprocessRun
  rw [hC, hI]
  dsimp only
  rw [if_pos ⟨rfl, hrc⟩]
  dsimp only
  rw [if_neg (by simp)]
  rfl

/-- Spec of `ensure_lintr_installed` when the `Rscript` executable itself is
missing: `FileNotFoundError` is not caught and no install runs. -/
theorem ensure_lintr_notFound_spec (env : Env) (fs : FS)
    (hNF : env.run lintrCheckCmd = .notFound) :
    ensure_lintr_installed env fs =
      (.error (.fileNotFoundError "Rscript"), fs, [.ran lintrCheckCmd]) := by
  unfold ensure_lintr_installed subprocessRun
  rw [hNF]
  rfl

/-- Environment in which no executable can be found. -/
def envNoExec : Env := { run := fun _ => .notFound, fsEffect := fun _ f => f }

/-- Claim C6, counterexample:  The claim says each of the three checkers
triggers exactly one install attempt when its probe fails because the
executable cannot be found.  For the lintr checker, a missing `Rscript`
executable raises `FileNotFoundError`, which the checker does not catch:
zero install attempts are triggered and the analysis call never proceeds. -/
theorem C6_counterexample :
    (analyze_code_lintr envNoExec fsEmpty "script.R").1 =
      .error (.fileNotFoundError "Rscript") ∧
    countRuns lintrInstallCmd (analyze_code_lintr envNoExec fsEmpty "script.R").2.2 = 0 :=
  ⟨rfl, by decide⟩

/-- Claim C6, amended:  The Pylint and Black checkers trigger exactly one
install attempt when their version probe raises executable-not-found, after
which the adapter call proceeds; the lintr checker triggers exactly one
install attempt when its probe exits non-zero, but a missing `Rscript`
executable propagates `FileNotFoundError` with zero install attempts. -/
theorem C6_amended :
    (∀ (env : Env) (fs : FS) (p : String) (ri ra : ProcResult),
      env.run pylintVersionCmd = .notFound →
      env.run pipInstallPylintCmd = .completed ri →
      env.run ["pylint", p] = .completed ra →
      (analyze_code_pylint env fs p).2.2 =
        [.ran pylintVersionCmd,
         .stWrite "Pylint is not installed. Installing it now...",
         .ran pipInstallPylintCmd, .ran ["pylint", p]] ∧
      (analyze_code_pylint env fs p).1 = .ok ra.stdout)
    ∧ (∀ (env : Env) (fs : FS) (ri : ProcResult),
      env.run blackVersionCmd = .notFound →
      env.run pipInstallBlackCmd = .completed ri →
      (ensure_black_installed env fs).2.2 =
        [.ran blackVersionCmd,
         .stWrite "Black is not installed. Installing it now...",
         .ran pipInstallBlackCmd] ∧
      (ensure_black_installed env fs).1 = .ok ())
    ∧ (∀ (env : Env) (fs : FS) (p : String) (rc ri ra : ProcResult),
      env.run lintrCheckCmd = .completed rc → rc.returncode ≠ 0 →
      env.run lintrInstallCmd = .completed ri →
      env.run [rscript_path, "-e", "lintr::lint(\"" ++ p ++ "\")"] = .completed ra →
      (analyze_code_lintr env fs p).2.2 =
        [.ran lintrCheckCmd,
         .stWrite "lintr is not installed in R. Installing it now...",
         .ran lintrInstallCmd,
         .ran [rscript_path, "-e", "lintr::lint(\"" ++ p ++ "\")"]] ∧
      (analyze_code_lintr env fs p).1 = .ok ra.stdout)
    ∧ (∀ (env : Env) (fs : FS),
      env.run lintrCheckCmd = .notFound →
      (ensure_lintr_installed env fs).1 = .error (.fileNotFoundError "Rscript") ∧
      countRuns lintrInstallCmd (ensure_lintr_installed env fs).2.2 = 0) := by
  refine ⟨?_, ?_, ?_, ?_⟩
  · intro env fs p ri ra hV hI hA
    unfold analyze_code_pylint
    rw [ensure_pylint_notFound_spec env fs ri hV hI]
    dsimp only
    unfold subprocessRun
    rw [hA]
    dsimp only
    rw [if_neg (by simp)]
    exact ⟨rfl, rfl⟩
  · intro env fs ri hV hI
    rw [ensure_black_notFound_spec env fs ri hV hI]
    exact ⟨rfl, rfl⟩
  · intro env fs p rc ri ra hC hrc hI hA
    unfold analyze_code_lintr
    rw [ensure_lintr_nonzero_spec env fs rc ri hC hrc hI]
    dsimp only
    unfold subprocessRun
    rw [hA]
    dsimp only
    rw [if_neg (by simp)]
    exact ⟨rfl, rfl⟩
  · intro env fs hNF
    rw [ensure_lintr_notFound_spec env fs hNF]
    exact ⟨rfl, rfl⟩

/-- Environment where only the pylint version probe is missing. -/
def envPylintMissing : Env :=
  { run := fun cmd =>
      if cmd = pylintVersionCmd then .notFound
      else .completed ⟨0, "rpt".data, []⟩,
    fsEffect := fun _ f => f }

/-- Environment where only the black version probe is missing. -/
def envBlackMissing : Env :=
  { run := fun cmd =>
      if cmd = blackVersionCmd then .notFound
      else .completed ⟨0, [], []⟩,
    fsEffect := fun _ f => f }

/-- Environment where the lintr library probe exits non-zero. -/
def envLintrMissing : Env :=
  { run := fun cmd =>
      if cmd = lintrCheckCmd then .completed ⟨1, [], []⟩
      else .completed ⟨0, "ok".data, []⟩,
    fsEffect := fun _ f => f }

/-- Witness for the amended C6 theorem at concrete environments. -/
theorem C6_witness :
    envPylintMissing.run pylintVersionCmd = .notFound ∧
    ((analyze_code_pylint envPylintMissing fsEmpty "m.py").2.2 =
      [.ran pylintVersionCmd,
       .stWrite "Pylint is not installed. Installing it now...",
       .ran pipInstallPylintCmd, .ran ["pylint", "m.py"]] ∧
     (analyze_code_pylint envPylintMissing fsEmpty "m.py").1 = .ok "rpt".data) ∧
    envBlackMissing.run blackVersionCmd = .notFound ∧
    ((ensure_black_installed envBlackMissing fsEmpty).2.2 =
      [.ran blackVersionCmd,
       .stWrite "Black is not installed. Installing it now...",
       .ran pipInstallBlackCmd] ∧
     (ensure_black_installed envBlackMissing fsEmpty).1 = .ok ()) ∧
    envLintrMissing.run lintrCheckCmd = .completed ⟨1, [], []⟩ ∧
    ((analyze_code_lintr envLintrMissing fsEmpty "m.R").2.2 =
      [.ran lintrCheckCmd,
       .stWrite "lintr is not installed in R. Installing it now...",
       .ran lintrInstallCmd,
       .ran [rscript_path, "-e", "lintr::lint(\"" ++ "m.R" ++ "\")"]] ∧
     (analyze_code_lintr envLintrMissing fsEmpty "m.R").1 = .ok "ok".data) ∧
    envNoExec.run lintrCheckCmd = .notFound ∧
    ((ensure_lintr_installed envNoExec fsEmpty).1 =
      .error (.fileNotFoundError "Rscript") ∧
     countRuns lintrInstallCmd (ensure_lintr_installed envNoExec fsEmpty).2.2 = 0) :=
  ⟨by decide,
   C6_amended.1 envPylintMissing fsEmpty "m.py" ⟨0, "rpt".data, []⟩ ⟨0, "rpt".data, []⟩
     (by decide) (by decide) (by decide),
   by decide,
   C6_amended.2.1 envBlackMissing fsEmpty ⟨0, [], []⟩ (by decide) (by decide),
   by decide,
   C6_amended.2.2.1 envLintrMissing fsEmpty "m.R" ⟨1, [], []⟩ ⟨0, "ok".data, []⟩
     ⟨0, "ok".data, []⟩ (by decide) (by decide) (by decide) (by decide),
   by decide,
   C6_amended.2.2.2 envNoExec fsEmpty (by decide)⟩

/-! ## Claim C8: the formatter adapter returns the post-format disk content -/

/-- Claim C8:  For every file path, `format_code_black` runs the external
formatter on the file and then reads the file back from disk: the string it
returns is exactly the file's on-disk content after the formatter ran. -/
theorem C8_black_returns_disk_content (env : Env) (fs : FS) (p : String)
    (r : ProcResult) (content : List Char)
    (hE : (ensure_black_installed env fs).1 = .ok ())
    (hR : env.run ["black", p] = .completed r)
    (hF : env.fsEffect ["black", p] (ensure_black_installed env fs).2.1 p = some content) :
    (format_code_black env fs p).1 = .ok content := by
  unfold format_code_black
  rcases h1 : ensure_black_installed env fs with ⟨e1, fs1, ev1⟩
  rw [h1] at hE hF
  obtain rfl : e1 = .ok () := hE
  have hF2 : env.fsEffect ["black", p] fs1 p = some content := hF
  dsimp only
  unfold subprocessRun
  rw [hR]
  dsimp only
  rw [if_neg (by simp)]
  dsimp only
  unfold pyOpenRead
  rw [hF2]

/-- Environment where running `black m.py` rewrites `m.py` on disk. -/
def c8Env : Env :=
  { run := fun _ => .completed ⟨0, [], []⟩,
    fsEffect := fun cmd f =>
      if cmd = ["black", "m.py"] then fileWriteFS f "m.py" "x = 1\n".data else f }

/-- Starting filesystem holding the unformatted `m.py`. -/
def c8Fs : FS := fun q => if q = "m.py" then some "x=1\n".data else none

/-- Witness for C8: the adapter returns the content black left on disk, not
the pre-format content. -/
theorem C8_witness :
    (ensure_black_installed c8Env c8Fs).1 = .ok () ∧
    c8Env.run ["black", "m.py"] = .completed ⟨0, [], []⟩ ∧
    c8Env.fsEffect ["black", "m.py"] (ensure_black_installed c8Env c8Fs).2.1 "m.py" =
      some "x = 1\n".data ∧
    (format_code_black c8Env c8Fs "m.py").1 = .ok "x = 1\n".data :=
  ⟨rfl, rfl, by decide,
   C8_black_returns_disk_content c8Env c8Fs "m.py" ⟨0, [], []⟩ "x = 1\n".data
     rfl rfl (by decide)⟩

/-! ## Helper lemmas on substrings and traces -/

theorem isPre_self_append (x b : List Char) : isPre x (x ++ b) = true := by
  induction x with
  | nil => rfl
  | cons a xs ih =>
    show isPre (a :: xs) (a :: (xs ++ b)) = true
    rw [isPre, if_pos rfl]
    exact ih

theorem isSubstring_of_isPre (n h : List Char) (hp : isPre n h = true) :
    isSubstring n h = true := by
  cases h with
  | nil =>
    cases n with
    | nil => rfl
    | cons c cs => exact absurd hp (by simp [isPre])
  | cons c rest =>
    rw [isSubstring, hp]
    rfl

theorem isSubstring_append_left (a n h : List Char)
    (hs : isSubstring n h = true) : isSubstring n (a ++ h) = true := by
  induction a with
  | nil => simpa using hs
  | cons c a2 ih =>
    show isSubstring n (c :: (a2 ++ h)) = true
    rw [isSubstring, ih]
    simp

theorem isSubstring_embed (a x b : List Char) :
    isSubstring x (a ++ (x ++ b)) = true :=
  isSubstring_append_left a x (x ++ b) (isSubstring_of_isPre x (x ++ b) (isPre_self_append x b))

/-! ## Claim C7: prompt substitution in the standardize functions -/

/-- Concrete R code for the C7 counterexample. -/
def c7Code : List Char := "x <- 1".data

/-- Concrete lintr report text for the C7 counterexample. -/
def c7Report : List Char := "warning: use arrow assignment".data

/-- Claim C7, counterexample:  The claim says every standardize prompt contains
both the code and the report.  For `standardize_code_lintr`, the prompt
built from concrete code and report contains the code but not the report:
line 130 of the source is a blank two-space line where the pylint twin
interpolates `{lint_report}`, so the parameter is dropped. -/
theorem C7_counterexample :
    isSubstring c7Code (lintrPrompt c7Code c7Report) = true ∧
    isSubstring c7Report (lintrPrompt c7Code c7Report) = false := by
  constructor
  · decide
  · decide

/-- Claim C7, amended:  The Pylint standardize prompt embeds both the source
code and the lint report; the lintr standardize prompt embeds only the
code — it does not depend on its `lint_report` argument at all. -/
theorem C7_prompt_embedding :
    (∀ code lint_report : List Char,
      isSubstring code (pylintPrompt code lint_report) = true ∧
      isSubstring lint_report (pylintPrompt code lint_report) = true) ∧
    (∀ code lint_report : List Char,
      isSubstring code (lintrPrompt code lint_report) = true) ∧
    (∀ code r1 r2 : List Char, lintrPrompt code r1 = lintrPrompt code r2) := by
  refine ⟨fun code r => ⟨?_, ?_⟩, fun code r => ?_, fun code r1 r2 => rfl⟩
  · unfold pylintPrompt
    simp only [List.append_assoc]
    exact isSubstring_embed _ code _
  · unfold pylintPrompt
    simp only [List.append_assoc]
    exact isSubstring_append_left _ r _
      (isSubstring_append_left _ r _
        (isSubstring_append_left _ r _ (isSubstring_of_isPre r _ (isPre_self_append r _))))
  · unfold lintrPrompt
    simp only [List.append_assoc]
    exact isSubstring_embed _ code _

/-! ## Claim C9: the unhandled language/standardizer combination -/

/-- Lemma: the `standardized_` prefix makes the output path differ from the input
path. -/
theorem standardized_ne (n : String) : "standardized_" ++ n ≠ n := by
  intro h
  have hl := congrArg String.length h
  rw [String.length_append] at hl
  have h13 : "standardized_".length = 13 := rfl
  omega

/-- Event is a program file write to `path`. -/
def isWriteTo (path : String) : Event → Bool
  | .fileWrite p _ => decide (p = path)
  | .ran _ => false
  | .stWrite _ => false
  | .stError _ => false
  | .stSubheader _ => false
  | .stText _ => false
  | .stTextArea _ _ => false
  | .downloadButton _ _ _ => false

/-- Whether the trace writes `path` at least once. -/
def writesTo (path : String) (evs : List Event) : Bool := evs.any (isWriteTo path)

/-- The model client emits no file writes. -/
theorem call_gemini_no_fileWrite (oracle : Oracle) (p : List Char) :
    hasFileWrite (call_gemini_llm oracle p).2 = false := by
  unfold call_gemini_llm
  cases oracle p <;> rfl

theorem isWriteTo_false_of_not_fileWrite (path : String) (e : Event)
    (he : isFileWrite e = false) : isWriteTo path e = false := by
  cases e <;> simp_all [isFileWrite, isWriteTo]

theorem writesTo_false_of_no_fileWrite (path : String) (evs : List Event)
    (h : hasFileWrite evs = false) : writesTo path evs = false := by
  unfold hasFileWrite at h
  unfold writesTo
  rw [List.any_eq_false] at h ⊢
  intro e he
  simp only [Bool.not_eq_true] at *
  exact isWriteTo_false_of_not_fileWrite path e (by simpa using h e he)

/-- Claim C9:  For the (Python, lintr) choice pair — allowed by the UI but
handled by no branch — no file is ever written at the `standardized_`
path, and the orchestrator's unconditional read of that path for the
download button fails with `FileNotFoundError`. -/
theorem C9_unhandled_pair_read_fails (env : Env) (oracle : Oracle)
    (name : String) (content : List Char) (fs : FS)
    (h : fs ("standardized_" ++ name) = none) :
    (mainStandardize env oracle "Python" "lintr" name content fs).1 =
      .error (.fileNotFoundError ("standardized_" ++ name)) ∧
    writesTo ("standardized_" ++ name)
      (mainStandardize env oracle "Python" "lintr" name content fs).2.2 = false := by
  unfold mainStandardize
  dsimp only
  have hread : pyOpenRead (fileWriteFS fs name content) name = .ok content := by
    unfold pyOpenRead fileWriteFS
    rw [if_pos rfl]
  rw [hread]
  dsimp only
  have hbr : standardizeBranch env oracle "Python" "lintr" name ("standardized_" ++ name)
      content (fileWriteFS fs name content) = (.ok (), fileWriteFS fs name content, []) := by
    unfold standardizeBranch
    rw [if_pos rfl, if_neg (by decide), if_neg (by decide)]
  rw [hbr]
  dsimp only
  have hread2 : pyOpenRead (fileWriteFS fs name content) ("standardized_" ++ name) =
      .error (.fileNotFoundError ("standardized_" ++ name)) := by
    unfold pyOpenRead fileWriteFS
    rw [if_neg (standardized_ne name), h]
  rw [hread2]
  dsimp only
  refine ⟨rfl, ?_⟩
  have h1 : isWriteTo ("standardized_" ++ name) (Event.fileWrite name content) = false := by
    simp only [isWriteTo, decide_eq_false_iff_not]
    exact fun e => standardized_ne name e.symm
  have h2 : writesTo ("standardized_" ++ name) (summarize_code oracle content "Python").2 = false :=
    writesTo_false_of_no_fileWrite _ _ (call_gemini_no_fileWrite oracle _)
  simp only [writesTo, List.any_append, List.any_cons, List.any_nil] at h2 ⊢
  simp [h1, h2, isWriteTo]
  exact fun e => standardized_ne name e.symm

/-- Witness for C9 at a concrete empty filesystem and trivial oracle. -/
def c9Oracle : Oracle := fun _ => .ok "summary".data

/-- Witness for C9: with nothing on disk, choosing Python with lintr ends in
`FileNotFoundError` on the `standardized_` path with no write to it. -/
theorem C9_witness :
    (fun _ => none : FS) ("standardized_" ++ "a.py") = none ∧
    (mainStandardize envNoExec c9Oracle "Python" "lintr" "a.py" "pass".data
      (fun _ => none)).1 =
      .error (.fileNotFoundError ("standardized_" ++ "a.py")) ∧
    writesTo ("standardized_" ++ "a.py")
      (mainStandardize envNoExec c9Oracle "Python" "lintr" "a.py" "pass".data
        (fun _ => none)).2.2 = false :=
  ⟨rfl,
   (C9_unhandled_pair_read_fails envNoExec c9Oracle "a.py" "pass".data (fun _ => none) rfl).1,
   (C9_unhandled_pair_read_fails envNoExec c9Oracle "a.py" "pass".data (fun _ => none) rfl).2⟩

/-! ## Claim C10: frame property of the Pylint standardize path -/

theorem hasFileWrite_append (a b : List Event) :
    hasFileWrite (a ++ b) = (hasFileWrite a || hasFileWrite b) := by
  simp [hasFileWrite]

theorem writesOnlyTo_append (path : String) (a b : List Event) :
    writesOnlyTo path (a ++ b) = (writesOnlyTo path a && writesOnlyTo path b) := by
  simp [writesOnlyTo]

theorem writesOnlyTo_of_no_fileWrite (path : String) (evs : List Event)
    (h : hasFileWrite evs = false) : writesOnlyTo path evs = true := by
  unfold hasFileWrite at h
  unfold writesOnlyTo
  rw [List.all_eq_true]
  intro e he
  rw [List.any_eq_false] at h
  have hfw : isFileWrite e = false := by simpa using h e he
  cases e <;> simp_all [isFileWrite, writeOk]

/-- The trace starts with the given first event and afterwards all program
file writes target `path`. -/
def savedThenOnly (first : Event) (path : String) : List Event → Bool
  | [] => false
  | e :: rest => decide (e = first) && writesOnlyTo path rest

theorem savedThenOnly_cons (first : Event) (path : String) (rest : List Event)
    (h : writesOnlyTo path rest = true) :
    savedThenOnly first path (first :: rest) = true := by
  unfold savedThenOnly
  simp [h]

theorem writesOnlyTo_cons (path : String) (e : Event) (evs : List Event) :
    writesOnlyTo path (e :: evs) = (writeOk path e && writesOnlyTo path evs) := by
  simp [writesOnlyTo]

theorem writesOnlyTo_nil (path : String) : writesOnlyTo path [] = true := rfl

/-- Lemma: `ensure_pylint_installed` performs no program file writes and — when the
environment's commands leave path `q` alone — preserves the filesystem
at `q`. -/
theorem ensure_pylint_frame (env : Env) (fs : FS) (q : String)
    (hp : ∀ c f, env.fsEffect c f q = f q) :
    hasFileWrite (ensure_pylint_installed env fs).2.2 = false ∧
    (ensure_pylint_installed env fs).2.1 q = fs q := by
  unfold ensure_pylint_installed subprocessRun
  rcases h1 : env.run pylintVersionCmd with r1 | _
  · dsimp only
    by_cases hrc : r1.returncode ≠ 0
    · rw [if_pos ⟨rfl, hrc⟩]
      exact ⟨rfl, hp _ _⟩
    · rw [if_neg fun hcon => hrc hcon.2]
      exact ⟨rfl, hp _ _⟩
  · dsimp only
    rcases h2 : env.run pipInstallPylintCmd with r2 | _
    · dsimp only
      rw [if_neg (by simp)]
      exact ⟨rfl, hp _ _⟩
    · exact ⟨rfl, rfl⟩

/-- Lemma: `analyze_code_pylint` performs no program file writes and preserves the
filesystem at any path the environment's commands leave alone. -/
theorem analyze_pylint_frame (env : Env) (fs : FS) (p q : String)
    (hp : ∀ c f, env.fsEffect c f q = f q) :
    hasFileWrite (analyze_code_pylint env fs p).2.2 = false ∧
    (analyze_code_pylint env fs p).2.1 q = fs q := by
  obtain ⟨hw, hfs⟩ := ensure_pylint_frame env fs q hp
  unfold analyze_code_pylint
  rcases hE : ensure_pylint_installed env fs with ⟨e1, fs1, ev1⟩
  rw [hE] at hw hfs
  have hw1 : hasFileWrite ev1 = false := hw
  have hfs1 : fs1 q = fs q := hfs
  cases e1 with
  | error e => exact ⟨hw1, hfs1⟩
  | ok u =>
    dsimp only
    unfold subprocessRun
    rcases h2 : env.run ["pylint", p] with r2 | _
    · dsimp only
      rw [if_neg (by simp)]
      dsimp only
      refine ⟨?_, ?_⟩
      · rw [hasFileWrite_append, hw1]
        rfl
      · rw [hp]
        exact hfs1
    · dsimp only
      refine ⟨?_, ?_⟩
      · rw [hasFileWrite_append, hw1]
        rfl
      · exact hfs1

/-- Claim C10:  On the Python/Pylint standardize path, the first program file
write is the save of the upload under its own name; every later program
file write targets only the `standardized_`-prefixed path, and — given that
the external commands leave the uploaded path alone — the uploaded file's
content at its original path is unchanged when the run ends. -/
theorem C10_pylint_path_preserves_upload (env : Env) (oracle : Oracle)
    (name : String) (content : List Char) (fs : FS)
    (hp : ∀ c f, env.fsEffect c f name = f name) :
    (mainStandardize env oracle "Python" "Pylint" name content fs).2.1 name = some content ∧
    savedThenOnly (Event.fileWrite name content) ("standardized_" ++ name)
      (mainStandardize env oracle "Python" "Pylint" name content fs).2.2 = true := by
  have hnn : ¬name = "standardized_" ++ name := fun e => standardized_ne name e.symm
  unfold mainStandardize
  dsimp only
  have hread : pyOpenRead (fileWriteFS fs name content) name = .ok content := by
    unfold pyOpenRead fileWriteFS
    rw [if_pos rfl]
  rw [hread]
  dsimp only
  unfold standardizeBranch
  rw [if_pos rfl, if_pos rfl]
  obtain ⟨haw, hafs⟩ := analyze_pylint_frame env (fileWriteFS fs name content) name name hp
  rcases hA : analyze_code_pylint env (fileWriteFS fs name content) name with ⟨eA, fsA, evA⟩
  rw [hA] at haw hafs
  have hA2 : writesOnlyTo ("standardized_" ++ name) evA = true :=
    writesOnlyTo_of_no_fileWrite _ _ haw
  have hfsA : fsA name = some content := by
    have h0 : fsA name = fileWriteFS fs name content name := hafs
    rw [h0]
    unfold fileWriteFS
    rw [if_pos rfl]
  have hsm2 : writesOnlyTo ("standardized_" ++ name)
      (summarize_code oracle content "Python").2 = true :=
    writesOnlyTo_of_no_fileWrite _ _
      (call_gemini_no_fileWrite oracle (summaryPrompt content "Python"))
  cases eA with
  | error e =>
    dsimp only
    refine ⟨hfsA, ?_⟩
    simp only [List.append_assoc, List.cons_append, List.nil_append]
    apply savedThenOnly_cons
    simp [writesOnlyTo_append, writesOnlyTo_cons, writesOnlyTo_nil, writeOk, hsm2, hA2]
  | ok report =>
    dsimp only
    have hgw2 : writesOnlyTo ("standardized_" ++ name)
        (standardize_code_pylint oracle content report).2 = true :=
      writesOnlyTo_of_no_fileWrite _ _
        (call_gemini_no_fileWrite oracle (pylintPrompt content report))
    obtain ⟨hbw, hbfs⟩ := analyze_pylint_frame env
      (fileWriteFS fsA ("standardized_" ++ name)
        (standardize_code_pylint oracle content report).1)
      ("standardized_" ++ name) name hp
    rcases hB : analyze_code_pylint env
        (fileWriteFS fsA ("standardized_" ++ name)
          (standardize_code_pylint oracle content report).1)
        ("standardized_" ++ name) with ⟨eB, fsB, evB⟩
    rw [hB] at hbw hbfs
    have hB2 : writesOnlyTo ("standardized_" ++ name) evB = true :=
      writesOnlyTo_of_no_fileWrite _ _ hbw
    have hfsB : fsB name = some content := by
      have h0 : fsB name = fileWriteFS fsA ("standardized_" ++ name)
          (standardize_code_pylint oracle content report).1 name := hbfs
      rw [h0]
      unfold fileWriteFS
      rw [if_neg hnn]
      exact hfsA
    cases eB with
    | error e =>
      dsimp only
      refine ⟨hfsB, ?_⟩
      simp only [List.append_assoc, List.cons_append, List.nil_append]
      apply savedThenOnly_cons
      simp [writesOnlyTo_append, writesOnlyTo_cons, writesOnlyTo_nil, writeOk, hsm2, hA2, hgw2, hB2]
    | ok newReport =>
      dsimp only
      rcases hfin : pyOpenRead fsB ("standardized_" ++ name) with d | e2
      · dsimp only
        refine ⟨hfsB, ?_⟩
        simp only [List.append_assoc, List.cons_append, List.nil_append]
        apply savedThenOnly_cons
        simp [writesOnlyTo_append, writesOnlyTo_cons, writesOnlyTo_nil, writeOk, hsm2, hA2, hgw2, hB2]
      · dsimp only
        refine ⟨hfsB, ?_⟩
        simp only [List.append_assoc, List.cons_append, List.nil_append]
        apply savedThenOnly_cons
        simp [writesOnlyTo_append, writesOnlyTo_cons, writesOnlyTo_nil, writeOk, hsm2, hA2, hgw2, hB2]

/-- Benign environment: every command exits 0 and leaves the filesystem
alone. -/
def c10Env : Env :=
  { run := fun _ => .completed ⟨0, "report ok".data, []⟩, fsEffect := fun _ f => f }

/-- Oracle for C10's witness. -/
def c10Oracle : Oracle := fun _ => .ok "print(1)".data

/-- Witness for C10 at a concrete benign environment. -/
theorem C10_witness :
    (∀ (c : List String) (f : FS), c10Env.fsEffect c f "a.py" = f "a.py") ∧
    (mainStandardize c10Env c10Oracle "Python" "Pylint" "a.py" "pass".data fsEmpty).2.1
      "a.py" = some "pass".data ∧
    savedThenOnly (Event.fileWrite "a.py" "pass".data) ("standardized_" ++ "a.py")
      (mainStandardize c10Env c10Oracle "Python" "Pylint" "a.py" "pass".data fsEmpty).2.2 =
      true :=
  ⟨fun _ _ => rfl,
   (C10_pylint_path_preserves_upload c10Env c10Oracle "a.py" "pass".data fsEmpty
     (fun _ _ => rfl)).1,
   (C10_pylint_path_preserves_upload c10Env c10Oracle "a.py" "pass".data fsEmpty
     (fun _ _ => rfl)).2⟩

end CodeStandardizer
